import Mathlib

/-!
Shallow embedding of the two scripts of this repository,
`scripts/onnx_train.py` (training pipeline) and `scripts/onnx_eval.py`
(inference pipeline), together with theorems checking the specification's
claims about them.

Conventions used throughout:
- Python floats are embedded as exact numbers (`ℚ` where the code only
  compares and copies values, `ℝ` where it computes with `exp`/`log`);
  floating-point rounding is not modelled.
- `sys.exit` / uncaught exceptions that abort the run are modelled as
  `Except.error`; caught exceptions that degrade behaviour are modelled by
  `Option`/branch structure, following the source's `try/except` blocks.
- External library calls (onnxruntime session construction, scipy's
  `curve_fit`, sklearn fitting) are parameters of the embedding; their
  documented contracts appear as hypotheses where a claim depends on them.
-/

/-- JSON values as produced by Python's `json.loads`: null, booleans, numbers,
strings, arrays and objects (association lists, in file order). -/
inductive JVal where
  | null : JVal
  | bool (b : Bool) : JVal
  | num (q : ℚ) : JVal
  | str (s : String) : JVal
  | arr (xs : List JVal) : JVal
  | obj (fields : List (String × JVal)) : JVal

/-- Key lookup in a parsed JSON object. Python's `json.loads` builds a dict in
which a later duplicate key overwrites an earlier one, so the last binding wins. -/
def lookupJ (fields : List (String × JVal)) (k : String) : Option JVal :=
  (fields.reverse.find? (fun f => f.fst == k)).map (fun f => f.snd)

/-- Python `float(v)` applied to a parsed JSON value: numbers coerce to
themselves, booleans to 0/1; `None`, arrays and objects raise `TypeError`
(modelled as `none`, the callers catch it). Numeric strings, which Python's
`float` would also accept, are outside this model; non-numeric strings raise
`ValueError`. -/
def pyFloat : JVal → Option ℚ
  | .num q => some q
  | .bool b => some (if b then 1 else 0)
  | _ => none

/-- Python truthiness of a parsed JSON value: `None`, `False`, `0`, the empty
string, the empty array and the empty object are falsy. -/
def pyTruthy : JVal → Bool
  | .null => false
  | .bool b => b
  | .num q => !(q == 0)
  | .str s => !(s == "")
  | .arr xs => !xs.isEmpty
  | .obj fs => !fs.isEmpty

/-- Models `params = calib_obj.get("parameters", ...) or ...` in
`_build_session_from_bundle` (onnx_eval.py line 175) followed by dict access:
a missing or falsy `parameters` value is replaced by the empty dict; a truthy
non-dict value makes the subsequent `params.get` raise `AttributeError`
(modelled as `none`, caught by the enclosing handler). -/
def paramsDict : Option JVal → Option (List (String × JVal))
  | none => some []
  | some (.obj pf) => some pf
  | some v => if pyTruthy v then none else some []

/-- Calibration loading from `_build_session_from_bundle`
(onnx_eval.py lines 169-180). The argument is `none` when `calibration.json`
is absent, `some none` when the file exists but fails to parse as JSON (the
exception is caught), and `some (some j)` for a parsed value `j`. Returns the
`(a, b)` mapping attached to the `SessionBundle`, or `none` for "no
calibration"; no input is a fatal error. -/
def loadCalibration (calibFile : Option (Option JVal)) : Option (ℚ × ℚ) :=
  match calibFile with
  | none => none
  | some none => none
  | some (some (.obj fields)) =>
    match lookupJ fields "calibrationType" with
    | some (.str t) =>
      if t = "platt" then
        match paramsDict (lookupJ fields "parameters") with
        | none => none
        | some pf =>
          match (match lookupJ pf "a" with | none => some (1 : ℚ) | some v => pyFloat v),
                (match lookupJ pf "b" with | none => some (0 : ℚ) | some v => pyFloat v) with
          | some a, some b => some (a, b)
          | _, _ => none
      else none
    | _ => none
  | some (some _) => none

/-- The well-formedness condition exactly as the claim states it: the type
field equals "platt" and the file contains nested numeric parameters `a`
and `b`. -/
def claimWellFormedCalib : Option (Option JVal) → Bool
  | some (some (.obj fields)) =>
    (match lookupJ fields "calibrationType" with
     | some (.str t) => t == "platt"
     | _ => false) &&
    (match lookupJ fields "parameters" with
     | some (.obj pf) =>
       (match lookupJ pf "a" with | some (.num _) => true | _ => false) &&
       (match lookupJ pf "b" with | some (.num _) => true | _ => false)
     | _ => false)
  | _ => false

/-- Entry `k` of a parameters object is absent (so its default is used) or
float-coercible. -/
def coercibleOrAbsent (pf : List (String × JVal)) (k : String) : Bool :=
  match lookupJ pf k with
  | none => true
  | some v => (pyFloat v).isSome

/-- The amended attachment condition: the file parses to an object whose
`calibrationType` is the string "platt", whose `parameters` entry is absent,
falsy, or an object, and whose `a` and `b` entries under `parameters`, when
present, are float-coercible (absent entries default to a = 1, b = 0). -/
def attachesCalib : Option (Option JVal) → Bool
  | some (some (.obj fields)) =>
    (match lookupJ fields "calibrationType" with
     | some (.str t) => t == "platt"
     | _ => false) &&
    (match lookupJ fields "parameters" with
     | none => true
     | some (.obj pf) => coercibleOrAbsent pf "a" && coercibleOrAbsent pf "b"
     | some v => !pyTruthy v)
  | _ => false

/-- The on-disk facts about one child of the base directory that discovery and
session building read: its name, whether it is a directory, whether
`model.onnx` exists, and the contents of `config.json` and `calibration.json`
(outer `Option`: the file exists; inner `Option`: it parses as JSON). -/
structure DirChild where
  name : String
  isDir : Bool
  hasModel : Bool
  config : Option (Option JVal)
  calib : Option (Option JVal)

/-- Case-insensitive sort key, modelling Python `p.name.lower()`: ASCII
lowering per character (`Char.toLower`), which agrees with Python on ASCII
names; comparison of keys is code-point lexicographic, as in Python. -/
def lowerKey (s : String) : List Char := s.data.map Char.toLower

/-- Comparison used by `sorted(base_dir.iterdir(), key=lambda p: p.name.lower())`
(onnx_eval.py line 209). -/
def childLe (a b : DirChild) : Bool := decide (lowerKey a.name ≤ lowerKey b.name)

/-- A child qualifies for loading (onnx_eval.py lines 210-214): it is a
directory and both `model.onnx` and `config.json` exist. -/
def qualifies (c : DirChild) : Bool := c.isDir && c.hasModel && c.config.isSome

/-- The parts of the built `SessionBundle` that the embedding tracks: the head
name (the directory name) and the parsed calibration. The onnxruntime session
and the resolved tensor names are external objects, not modelled. -/
structure SessionBundleM where
  head : String
  calibration : Option (ℚ × ℚ)
deriving DecidableEq

/-- Validation part of `_build_session_from_bundle` (onnx_eval.py lines
105-121): missing files are fatal; a config whose JSON lacks
`inputTensorName` or `outputTensorName` raises `KeyError`, which is caught
and turned into `sys.exit` — fatal. A config that is not a JSON object makes
the subscript raise, likewise fatal; an unparseable config file raises an
uncaught `JSONDecodeError` — also fatal. Session construction and tensor-name
resolution (lines 124-167) are external and abstracted away. -/
def buildSessionFromBundle (c : DirChild) : Except Unit SessionBundleM :=
  if !c.hasModel then .error ()
  else
    match c.config with
    | none => .error ()
    | some none => .error ()
    | some (some (.obj fs)) =>
      match lookupJ fs "inputTensorName", lookupJ fs "outputTensorName" with
      | some _, some _ => .ok { head := c.name, calibration := loadCalibration c.calib }
      | _, _ => .error ()
    | some (some _) => .error ()

/-- The scan loop of `discover_onnx_models_dir` (onnx_eval.py lines 209-216),
over an already-sorted list: non-qualifying children are silently skipped;
qualifying children are built, and a build failure aborts everything. -/
def buildAll : List DirChild → Except Unit (List SessionBundleM)
  | [] => .ok []
  | c :: rest =>
    if qualifies c then
      match buildSessionFromBundle c with
      | .error e => .error e
      | .ok sb =>
        match buildAll rest with
        | .error e => .error e
        | .ok bs => .ok (sb :: bs)
    else buildAll rest

/-- `discover_onnx_models_dir` (onnx_eval.py lines 193-220): children of the
base directory are sorted by the case-insensitive key, scanned in that order,
and the run is fatal when no bundle is discovered. The base-directory
existence check is outside the model (the children list is given). -/
def discoverBundles (children : List DirChild) : Except Unit (List SessionBundleM) :=
  match buildAll (children.mergeSort childLe) with
  | .error e => .error e
  | .ok [] => .error ()
  | .ok bs => .ok bs

/-- Head names of a bundle list, in order; this is the head ordering every
downstream output uses. -/
def bundleHeads (bs : List SessionBundleM) : List String :=
  bs.map (fun b => b.head)

/-- A qualifying child whose parsed config object lacks `inputTensorName` or
`outputTensorName`. -/
def missingTensorKeys (c : DirChild) : Bool :=
  match c.config with
  | some (some (.obj fs)) =>
    (lookupJ fs "inputTensorName").isNone || (lookupJ fs "outputTensorName").isNone
  | _ => false

/-- The logistic function `1 / (1 + exp(-x))`, as computed by both inference
calibration paths in onnx_eval.py. -/
noncomputable def sigmoid (x : ℝ) : ℝ := 1 / (1 + Real.exp (-x))

/-- Calibrated probability in the JSON-Lines output path (onnx_eval.py lines
291-295): the raw probability is first sent to logit space with
`log(p / (1 - p + 1e-10))`, then scaled and squashed. -/
noncomputable def calibratedProbJsonl (a b p : ℝ) : ℝ :=
  sigmoid (a * Real.log (p / (1 - p + 1e-10)) + b)

/-- Calibrated probability in the CSV output path (onnx_eval.py line 330):
`a` and `b` are applied directly to the raw probability, with no logit
transform. -/
noncomputable def calibratedProbCsv (a b p : ℝ) : ℝ := sigmoid (a * p + b)

/-- Modelled from the spec: the mandatory calibration transform, "calibrated
probability from a raw probability p is always computed as
sigmoid(a · ln(p/(1-p+ε)) + b)" with ε = 1e-10. -/
noncomputable def specCalibratedProb (a b p : ℝ) : ℝ :=
  1 / (1 + Real.exp (-(a * Real.log (p / (1 - p + 1e-10)) + b)))

/-- Probability used for output in the JSON-Lines path (onnx_eval.py lines
287-297): raw when the bundle has no calibration, otherwise the logit-space
transform. The `except` fallback to the raw probability concerns non-float
parameters only (numpy `log`/`exp` do not raise on floats) and is not
modelled. -/
noncomputable def applyCalibrationJsonl (calib : Option (ℝ × ℝ)) (p : ℝ) : ℝ :=
  match calib with
  | none => p
  | some ab => calibratedProbJsonl ab.1 ab.2 p

/-- Binary label in the JSON-Lines path (onnx_eval.py line 300):
`int(p >= thr)` on the possibly calibrated probability. -/
noncomputable def predictLabel (calib : Option (ℝ × ℝ)) (thr p : ℝ) : ℤ :=
  if thr ≤ applyCalibrationJsonl calib p then 1 else 0

/-- Values appearing in one JSON-Lines output record. -/
inductive JsonOut where
  | str (s : String) : JsonOut
  | num (x : ℝ) : JsonOut
  | int (n : ℤ) : JsonOut

/-- Per-head threshold from `parse_thresholds` (onnx_eval.py lines 223-234):
default 0.5, with repeatable `head=value` overrides, a later override
winning. -/
noncomputable def thresholdFor (overrides : List (String × ℝ)) (h : String) : ℝ :=
  (((overrides.reverse.find? (fun o => o.fst == h)).map (fun o => o.snd)).getD (1/2))

/-- One JSON-Lines output record (onnx_eval.py lines 269-301): key "text"
first, then for each head in discovery order the entry `p_<head>` (when
probabilities are enabled) followed by the binary label under `<head>`.
Python dicts preserve insertion order and `json.dumps` serializes in that
order, so the record is modelled as an ordered association list. Each head is
given as (name, calibration, raw positive-class probability of this text). -/
noncomputable def jsonlRecord (includeProb : Bool) (overrides : List (String × ℝ))
    (text : String) (heads : List (String × Option (ℝ × ℝ) × ℝ)) :
    List (String × JsonOut) :=
  ("text", JsonOut.str text) ::
    heads.flatMap (fun hcr =>
      (if includeProb
       then [("p_" ++ hcr.1, JsonOut.num (applyCalibrationJsonl hcr.2.1 hcr.2.2))]
       else []) ++
      [(hcr.1, JsonOut.int (predictLabel hcr.2.1 (thresholdFor overrides hcr.1) hcr.2.2))])

/-- One row of the training table: its text and its label-column values (one
integer per label column, in column order). -/
structure TrainRow where
  text : String
  labels : List Int
deriving DecidableEq

/-- Python `str.strip` on a string: leading and trailing whitespace
characters are removed. `Char.isWhitespace` covers space, tab, carriage
return and newline; Python additionally strips form feed, vertical tab and
Unicode spaces, which do not occur in this repository's ASCII data. -/
def pyStrip (s : String) : String :=
  ⟨((s.data.dropWhile Char.isWhitespace).reverse.dropWhile
      Char.isWhitespace).reverse⟩

/-- Trim-and-filter step of `parse_training_data` (onnx_train.py lines
116-120): text is stripped, then rows whose stripped text has length ≤ 2 are
removed; everything downstream (statistics, splits, fits) consumes only the
result. Python `len` on a string counts code points, as `String.length`
does. -/
def prepareRows (rows : List TrainRow) : List TrainRow :=
  (rows.map (fun r => { r with text := pyStrip r.text })).filter
    (fun r => 2 < r.text.length)

/-- Positive count of label column `d` in the dataset statistics
(onnx_train.py line 142), computed on the filtered rows only. -/
def posCount (d : Nat) (rows : List TrainRow) : Int :=
  ((prepareRows rows).map (fun r => r.labels.getD d 0)).sum

/-- Per-head training inputs as seen by the loop in `main` (onnx_train.py
lines 385-550): the head name, the head's full label column, and whether the
external skl2onnx conversion of the fitted pipeline succeeds. -/
structure HeadTask where
  headName : String
  labelColumn : List Int
  exportOk : Bool
deriving DecidableEq

/-- Single-class check from `split_training_data` (onnx_train.py lines
157-161): fewer than two distinct label values. -/
def singleClass (h : HeadTask) : Bool := h.labelColumn.dedup.length < 2

/-- The per-head training loop of `main` (onnx_train.py lines 385-550): a
single-class head is skipped and the loop continues with the next head; an
ONNX conversion failure returns exit code 1 immediately (lines 486-488),
abandoning all remaining heads; otherwise the head's bundle is written.
Returns the exit code and the heads for which a bundle was emitted. -/
def runTrainingLoop : List HeadTask → Nat × List String
  | [] => (0, [])
  | h :: rest =>
    if singleClass h then runTrainingLoop rest
    else if h.exportOk then
      ((runTrainingLoop rest).1, h.headName :: (runTrainingLoop rest).2)
    else (1, [])

/-- Population mean, as `np.mean`. The empty case is unreachable behind the
length guard. -/
def listMean (xs : List ℚ) : ℚ := xs.sum / xs.length

/-- Population variance (the square of `np.std`, ddof = 0). The source
compares `np.std(prob_pred) < 0.01`; over exact arithmetic that is
equivalent to the variance being below 1e-4, which is the form used here. -/
def listVar (xs : List ℚ) : ℚ :=
  ((xs.map (fun x => (x - listMean xs) ^ 2)).sum) / xs.length

/-- Calibration parameters with their "type" tag (platt_scaling vs
identity), as assembled in onnx_train.py lines 436-467. -/
structure CalibParams where
  a : ℚ
  b : ℚ
  isPlatt : Bool
deriving DecidableEq

/-- Branch structure of the calibrator (onnx_train.py lines 433-467).
`probPred` holds the mean predicted probability of each occupied reliability
bin, as returned by `calibration_curve`. The scipy `curve_fit` call on the
logit-space data is external; its outcome is the parameter `curveFitResult`:
`none` models an exception (degraded to identity), `some (a, b)` a
successful fit under `bounds=([-10, -10], [10, 10])`. -/
def fitCalibration (curveFitResult : Option (ℚ × ℚ)) (probPred : List ℚ) :
    CalibParams :=
  if probPred.length < 3 ∨ listVar probPred < 1/10^4 then ⟨1, 0, false⟩
  else
    match curveFitResult with
    | some ab => ⟨ab.1, ab.2, true⟩
    | none => ⟨1, 0, false⟩

/-- Persistence guard from onnx_train.py line 532: `calibration.json` is
written exactly when not (|a - 1| < 1e-9 and |b| < 1e-9). -/
def writesCalibrationFile (a b : ℚ) : Bool :=
  !(decide (|a - 1| < 1/10^9) && decide (|b| < 1/10^9))

/-- C3: The training pipeline writes a calibration.json for a head if and only
if the fitted parameters (a, b) differ from identity (1, 0) beyond tolerance
1e-9, i.e. |a - 1| ≥ 1e-9 or |b| ≥ 1e-9; identity parameters are never
persisted. -/
theorem calibration_persisted_iff_nonidentity (a b : ℚ) :
    writesCalibrationFile a b = true ↔ (1/10^9 ≤ |a - 1| ∨ 1/10^9 ≤ |b|) := by
  simp only [writesCalibrationFile, Bool.not_eq_true', Bool.and_eq_false_iff,
    decide_eq_false_iff_not, not_lt]

/-- C4: Every calibration produced by the calibrator has a, b in [-10, 10]:
the degenerate branches (fewer than 3 occupied bins, std of bin means below
0.01, or fit failure) return exactly (1, 0), and the nonlinear least-squares
fit runs with bounds a, b in [-10, 10] (the hypothesis on the external
curve_fit result), so no fitted calibration leaves that box. -/
theorem fitted_calibration_bounded (cf : Option (ℚ × ℚ)) (pp : List ℚ)
    (hbound : ∀ ab : ℚ × ℚ, cf = some ab →
      (-10 ≤ ab.1 ∧ ab.1 ≤ 10) ∧ (-10 ≤ ab.2 ∧ ab.2 ≤ 10)) :
    ((-10 ≤ (fitCalibration cf pp).a ∧ (fitCalibration cf pp).a ≤ 10) ∧
     (-10 ≤ (fitCalibration cf pp).b ∧ (fitCalibration cf pp).b ≤ 10)) ∧
    (pp.length < 3 → fitCalibration cf pp = ⟨1, 0, false⟩) ∧
    (listVar pp < 1/10^4 → fitCalibration cf pp = ⟨1, 0, false⟩) ∧
    (cf = none → fitCalibration cf pp = ⟨1, 0, false⟩) := by
  unfold fitCalibration
  split
  · exact ⟨⟨⟨by norm_num, by norm_num⟩, ⟨by norm_num, by norm_num⟩⟩,
      fun _ => rfl, fun _ => rfl, fun _ => rfl⟩
  · rename_i hdeg
    cases cf with
    | none =>
      exact ⟨⟨⟨by norm_num, by norm_num⟩, ⟨by norm_num, by norm_num⟩⟩,
        fun hl => absurd (Or.inl hl) hdeg, fun hv => absurd (Or.inr hv) hdeg,
        fun _ => rfl⟩
    | some ab =>
      refine ⟨hbound ab rfl, fun hl => absurd (Or.inl hl) hdeg,
        fun hv => absurd (Or.inr hv) hdeg, fun h => by cases h⟩

/-- Witness for C4 at a concrete fit result (2, 3) and three occupied bins
with enough variance. -/
theorem fitted_calibration_bounded_witness :
    (∀ ab : ℚ × ℚ, (some ((2 : ℚ), (3 : ℚ)) = some ab) →
      (-10 ≤ ab.1 ∧ ab.1 ≤ 10) ∧ (-10 ≤ ab.2 ∧ ab.2 ≤ 10)) ∧
    (((-10 ≤ (fitCalibration (some (2, 3)) [1/10, 1/2, 9/10]).a ∧
       (fitCalibration (some (2, 3)) [1/10, 1/2, 9/10]).a ≤ 10) ∧
      (-10 ≤ (fitCalibration (some (2, 3)) [1/10, 1/2, 9/10]).b ∧
       (fitCalibration (some (2, 3)) [1/10, 1/2, 9/10]).b ≤ 10)) ∧
     (([(1 : ℚ)/10, 1/2, 9/10].length < 3) →
       fitCalibration (some (2, 3)) [1/10, 1/2, 9/10] = ⟨1, 0, false⟩) ∧
     ((listVar [1/10, 1/2, 9/10] < 1/10^4) →
       fitCalibration (some (2, 3)) [1/10, 1/2, 9/10] = ⟨1, 0, false⟩) ∧
     ((some ((2 : ℚ), (3 : ℚ)) = none) →
       fitCalibration (some (2, 3)) [1/10, 1/2, 9/10] = ⟨1, 0, false⟩)) :=
  ⟨fun ab hab => by cases hab; exact ⟨⟨by norm_num, by norm_num⟩, ⟨by norm_num, by norm_num⟩⟩,
   fitted_calibration_bounded (some (2, 3)) [1/10, 1/2, 9/10]
     (fun ab hab => by cases hab; exact ⟨⟨by norm_num, by norm_num⟩, ⟨by norm_num, by norm_num⟩⟩)⟩

/-- C5 counterexample: a calibration file consisting only of
calibrationType "platt", with no parameters object at all, still gets a
calibration (a = 1, b = 0) attached, although it does not contain nested
numeric parameters a and b as the claim requires. -/
theorem platt_without_parameters_attaches :
    loadCalibration (some (some (.obj [("calibrationType", .str "platt")]))) =
      some (1, 0) ∧
    claimWellFormedCalib (some (some (.obj [("calibrationType", .str "platt")]))) =
      false := by
  constructor <;> rfl

/-- C5 (amended): the bundle loader attaches calibration to a SessionBundle
exactly when the calibration file parses to an object whose calibrationType
is the string "platt", whose parameters entry is absent, falsy, or an object,
and whose a and b entries under parameters, when present, are float-coercible
(absent entries default to a = 1, b = 0); any other shape, or an absent or
unparseable file, yields no calibration and is never a fatal error. -/
theorem calibration_attachment_characterization (f : Option (Option JVal)) :
    (loadCalibration f).isSome = attachesCalib f := by
  rcases f with _ | f
  · rfl
  rcases f with _ | j
  · rfl
  cases j with
  | null => rfl
  | bool b => rfl
  | num q => rfl
  | str s => rfl
  | arr xs => rfl
  | obj fields =>
    simp only [loadCalibration, attachesCalib]
    rcases hct : lookupJ fields "calibrationType" with _ | v
    · rfl
    cases v with
    | str t =>
      dsimp only
      by_cases ht : t = "platt"
      · subst ht
        rw [if_pos rfl]
        simp only [beq_self_eq_true, Bool.true_and]
        rcases hp : lookupJ fields "parameters" with _ | pv
        · simp [paramsDict, lookupJ]
        cases pv with
        | obj pf =>
          simp only [paramsDict, coercibleOrAbsent]
          rcases ha : lookupJ pf "a" with _ | av <;>
            rcases hb : lookupJ pf "b" with _ | bv
          · rfl
          · simp only []
            cases hfb : pyFloat bv <;> simp [hfb]
          · simp only []
            cases hfa : pyFloat av <;> simp [hfa]
          · simp only []
            cases hfa : pyFloat av <;> cases hfb : pyFloat bv <;> simp [hfa, hfb]
        | null => simp [paramsDict, pyTruthy, lookupJ]
        | bool b => cases b <;> simp [paramsDict, pyTruthy, lookupJ]
        | num q =>
          by_cases hq : q = 0 <;> simp [paramsDict, pyTruthy, hq, lookupJ]
        | str s =>
          by_cases hs : s = "" <;> simp [paramsDict, pyTruthy, hs, lookupJ]
        | arr xs =>
          cases xs <;> simp [paramsDict, pyTruthy, lookupJ]
      · rw [if_neg ht]
        simp [ht]
    | null => rfl
    | bool b => rfl
    | num q => rfl
    | arr xs => rfl
    | obj o => rfl

/-- The logistic function is strictly monotone; used to separate the two
calibration paths. -/
lemma sigmoid_lt_sigmoid {x y : ℝ} (h : x < y) : sigmoid x < sigmoid y := by
  unfold sigmoid
  have hx : (0 : ℝ) < 1 + Real.exp (-x) := by positivity
  have hy : (0 : ℝ) < 1 + Real.exp (-y) := by positivity
  apply one_div_lt_one_div_of_lt hy
  have := Real.exp_lt_exp.mpr (neg_lt_neg h)
  linarith

/-- Closed form of the JSON-Lines calibration transform at identity
parameters: the logit round-trip returns p divided by (1 + 1e-10). -/
lemma calibratedProbJsonl_identity {p : ℝ} (h0 : 0 < p) (h1 : p ≤ 1) :
    calibratedProbJsonl 1 0 p = p / (1 + 1e-10) := by
  unfold calibratedProbJsonl sigmoid
  have hd : (0 : ℝ) < 1 - p + 1e-10 := by norm_num; linarith
  have hr : (0 : ℝ) < p / (1 - p + 1e-10) := div_pos h0 hd
  rw [one_mul, add_zero, Real.exp_neg, Real.exp_log hr]
  rw [div_eq_div_iff (by positivity) (by norm_num)]
  field_simp
  ring

/-- C1: the JSON-Lines inference path computes exactly the mandated
logit-then-sigmoid transform, but the CSV path does not: at calibration
(a, b) = (2, 0) and raw probability 0.9 the CSV path (which applies
sigmoid(a·p + b) directly to the raw probability) disagrees with the
mandated sigmoid(a·ln(p/(1-p+1e-10)) + b), so the logit transform is
omitted in one output mode. -/
theorem csv_calibration_omits_logit :
    (∀ a b p : ℝ, calibratedProbJsonl a b p = specCalibratedProb a b p) ∧
    calibratedProbCsv 2 0 (9/10) ≠ specCalibratedProb 2 0 (9/10) := by
  constructor
  · intro a b p
    rfl
  · have hspec : specCalibratedProb 2 0 (9/10) = calibratedProbJsonl 2 0 (9/10) := rfl
    rw [hspec]
    have key : (2 : ℝ) * (9/10) + 0 < 2 * Real.log ((9/10) / (1 - 9/10 + 1e-10)) + 0 := by
      have harg : Real.exp 1 < (9/10 : ℝ) / (1 - 9/10 + 1e-10) := by
        calc Real.exp 1 < 2.7182818286 := Real.exp_one_lt_d9
          _ < (9/10 : ℝ) / (1 - 9/10 + 1e-10) := by norm_num
      have hlog : (1 : ℝ) < Real.log ((9/10) / (1 - 9/10 + 1e-10)) := by
        have := Real.log_lt_log (Real.exp_pos 1) harg
        rwa [Real.log_exp] at this
      linarith
    exact ne_of_lt (sigmoid_lt_sigmoid key)

/-- C2 counterexample: at raw probability 0.5 and threshold 0.5, a bundle
with an explicit identity calibration file (a = 1, b = 0) produces a
different probability (0.5 / (1 + 1e-10)) and a different label (0 instead
of 1) than a bundle with no calibration file, in the JSON-Lines path. -/
theorem identity_calibration_not_identical :
    applyCalibrationJsonl (some (1, 0)) (1/2) ≠ applyCalibrationJsonl none (1/2) ∧
    predictLabel (some (1, 0)) (1/2) (1/2) ≠ predictLabel none (1/2) (1/2) := by
  have hv : calibratedProbJsonl 1 0 (1/2) = (1/2) / (1 + 1e-10) :=
    calibratedProbJsonl_identity (by norm_num) (by norm_num)
  have hlt : calibratedProbJsonl 1 0 (1/2) < 1/2 := by rw [hv]; norm_num
  constructor
  · show calibratedProbJsonl 1 0 (1/2) ≠ (1/2 : ℝ)
    exact ne_of_lt hlt
  · show (if (1:ℝ)/2 ≤ calibratedProbJsonl 1 0 (1/2) then (1:ℤ) else 0) ≠
      (if (1:ℝ)/2 ≤ (1/2 : ℝ) then (1:ℤ) else 0)
    rw [if_neg (not_le.mpr hlt), if_pos le_rfl]
    decide

/-- C2 (amended): for every raw probability p in (0, 1], the JSON-Lines
probability under an explicit identity calibration equals p / (1 + 1e-10) —
within 1e-6 of the raw probability, as the spec's tolerance states, but not
identical to it (so the label can differ when p sits exactly at the
threshold). -/
theorem identity_calibration_within_tolerance (p : ℝ) (h0 : 0 < p) (h1 : p ≤ 1) :
    applyCalibrationJsonl (some (1, 0)) p = p / (1 + 1e-10) ∧
    |applyCalibrationJsonl (some (1, 0)) p - p| ≤ 1e-6 := by
  have heq : applyCalibrationJsonl (some (1, 0)) p = p / (1 + 1e-10) :=
    calibratedProbJsonl_identity h0 h1
  refine ⟨heq, ?_⟩
  have hq : p / (1 + 1e-10) * (1 + 1e-10) = p := div_mul_cancel₀ p (by norm_num)
  have hq2 : (0 : ℝ) < p / (1 + 1e-10) := by positivity
  rw [heq, abs_le]
  constructor <;> nlinarith [hq, hq2, h1]

/-- Witness for C2's amended theorem at p = 1/2. -/
theorem identity_calibration_within_tolerance_witness :
    ((0 : ℝ) < 1/2 ∧ (1/2 : ℝ) ≤ 1) ∧
    (applyCalibrationJsonl (some (1, 0)) (1/2) = (1/2) / (1 + 1e-10) ∧
     |applyCalibrationJsonl (some (1, 0)) (1/2) - 1/2| ≤ 1e-6) :=
  ⟨⟨by norm_num, by norm_num⟩,
   identity_calibration_within_tolerance (1/2) (by norm_num) (by norm_num)⟩

/-- C8: during dataset preparation, every row whose text, after stripping,
has length ≤ 2 is removed before anything else happens — its presence or
absence changes neither the prepared row list nor any statistic computed
from it — and every row with stripped length > 2 is kept (with its text
stripped). -/
theorem short_rows_filtered :
    (∀ rows : List TrainRow, ∀ r ∈ prepareRows rows, 2 < r.text.length) ∧
    (∀ (l1 l2 : List TrainRow) (r : TrainRow), (pyStrip r.text).length ≤ 2 →
      prepareRows (l1 ++ r :: l2) = prepareRows (l1 ++ l2) ∧
      ∀ d, posCount d (l1 ++ r :: l2) = posCount d (l1 ++ l2)) ∧
    (∀ rows : List TrainRow, ∀ r ∈ rows, 2 < (pyStrip r.text).length →
      { r with text := pyStrip r.text } ∈ prepareRows rows) := by
  refine ⟨?_, ?_, ?_⟩
  · intro rows r hr
    have := List.of_mem_filter hr
    simpa using this
  · intro l1 l2 r hshort
    have key : prepareRows (l1 ++ r :: l2) = prepareRows (l1 ++ l2) := by
      simp only [prepareRows, List.map_append, List.map_cons, List.filter_append,
        List.filter_cons]
      have : ¬ (2 < (pyStrip r.text).length) := not_lt.mpr hshort
      simp [this]
    exact ⟨key, fun d => by simp only [posCount, key]⟩
  · intro rows r hr hlong
    simp only [prepareRows, List.mem_filter]
    refine ⟨List.mem_map.mpr ⟨r, hr, rfl⟩, by simpa using hlong⟩


/-- Witness for C8: a kept long row, a dropped short row that changes no
downstream value, and a kept row with surrounding whitespace. -/
theorem short_rows_filtered_witness :
    ((TrainRow.mk "hello" [1] ∈ prepareRows [TrainRow.mk "hello" [1]]) ∧
      2 < (TrainRow.mk "hello" [1]).text.length) ∧
    ((pyStrip (TrainRow.mk "hi " [1]).text).length ≤ 2 ∧
      (prepareRows ([TrainRow.mk "hello" [1]] ++ TrainRow.mk "hi " [1] ::
          [TrainRow.mk " big world " [0]]) =
        prepareRows ([TrainRow.mk "hello" [1]] ++ [TrainRow.mk " big world " [0]]) ∧
       ∀ d, posCount d ([TrainRow.mk "hello" [1]] ++ TrainRow.mk "hi " [1] ::
          [TrainRow.mk " big world " [0]]) =
         posCount d ([TrainRow.mk "hello" [1]] ++ [TrainRow.mk " big world " [0]]))) ∧
    ((TrainRow.mk " big world " [0] ∈ [TrainRow.mk " big world " [0]]) ∧
      2 < (pyStrip (TrainRow.mk " big world " [0]).text).length ∧
      { TrainRow.mk " big world " [0] with
          text := pyStrip (TrainRow.mk " big world " [0]).text } ∈
        prepareRows [TrainRow.mk " big world " [0]]) :=
  ⟨⟨by decide, short_rows_filtered.1 [TrainRow.mk "hello" [1]]
      (TrainRow.mk "hello" [1]) (by decide)⟩,
   ⟨by decide, short_rows_filtered.2.1 [TrainRow.mk "hello" [1]]
      [TrainRow.mk " big world " [0]] (TrainRow.mk "hi " [1]) (by decide)⟩,
   ⟨by decide, by decide, short_rows_filtered.2.2 [TrainRow.mk " big world " [0]]
      (TrainRow.mk " big world " [0]) (by decide) (by decide)⟩⟩

/-- C7: failure scopes in training are asymmetric. A head whose label column
has fewer than 2 distinct values is skipped locally: no bundle is emitted
for it, the remaining heads still train, and the run exits with status 0
(when no other head fails export). A graph-export failure for any single
head returns exit code 1 immediately, emitting bundles only for the heads
already processed. -/
theorem training_failure_scopes :
    (∀ hs : List HeadTask, (∀ h ∈ hs, singleClass h = false → h.exportOk = true) →
      runTrainingLoop hs =
        (0, (hs.filter (fun h => !singleClass h)).map HeadTask.headName)) ∧
    (∀ (pre post : List HeadTask) (h : HeadTask),
      (∀ g ∈ pre, singleClass g = true ∨ g.exportOk = true) →
      singleClass h = false → h.exportOk = false →
      runTrainingLoop (pre ++ h :: post) =
        (1, (pre.filter (fun g => !singleClass g)).map HeadTask.headName)) := by
  constructor
  · intro hs
    induction hs with
    | nil => intro _; rfl
    | cons g rest ih =>
      intro hyp
      have hrest := ih (fun h hm hsc => hyp h (List.mem_cons_of_mem g hm) hsc)
      cases hsc : singleClass g with
      | true => simp [runTrainingLoop, hsc, hrest]
      | false =>
        have hok : g.exportOk = true := hyp g (List.mem_cons_self g rest) hsc
        simp [runTrainingLoop, hsc, hok, hrest]
  · intro pre post h
    induction pre with
    | nil =>
      intro _ hsc hok
      simp [runTrainingLoop, hsc, hok]
    | cons g pre' ih =>
      intro hyp hsc hok
      have hres := ih (fun g' hm => hyp g' (List.mem_cons_of_mem g hm)) hsc hok
      rcases hyp g (List.mem_cons_self g pre') with hg | hg
      · simp [runTrainingLoop, hg, hres]
      · cases hscg : singleClass g with
        | true => simp [runTrainingLoop, hscg, hres]
        | false => simp [runTrainingLoop, hscg, hg, hres]


/-- Witness for C7: a run with a single-class head exits 0 without its
bundle; a run with an export failure exits 1. -/
theorem training_failure_scopes_witness :
    ((∀ h ∈ [HeadTask.mk "a" [0, 1] true, HeadTask.mk "b" [1, 1] true,
        HeadTask.mk "c" [0, 1] true],
        singleClass h = false → h.exportOk = true) ∧
      runTrainingLoop [HeadTask.mk "a" [0, 1] true, HeadTask.mk "b" [1, 1] true,
        HeadTask.mk "c" [0, 1] true] =
        (0, (([HeadTask.mk "a" [0, 1] true, HeadTask.mk "b" [1, 1] true,
          HeadTask.mk "c" [0, 1] true].filter (fun h => !singleClass h)).map
          HeadTask.headName))) ∧
    ((∀ g ∈ [HeadTask.mk "a" [0, 1] true], singleClass g = true ∨ g.exportOk = true) ∧
      singleClass (HeadTask.mk "b" [0, 1] false) = false ∧
      (HeadTask.mk "b" [0, 1] false).exportOk = false ∧
      runTrainingLoop ([HeadTask.mk "a" [0, 1] true] ++
          HeadTask.mk "b" [0, 1] false :: [HeadTask.mk "c" [0, 1] true]) =
        (1, (([HeadTask.mk "a" [0, 1] true].filter (fun g => !singleClass g)).map
          HeadTask.headName))) :=
  ⟨⟨by decide, training_failure_scopes.1 _ (by decide)⟩,
   ⟨by decide, by decide, by decide,
    training_failure_scopes.2 [HeadTask.mk "a" [0, 1] true]
      [HeadTask.mk "c" [0, 1] true] (HeadTask.mk "b" [0, 1] false)
      (by decide) (by decide) (by decide)⟩⟩


/-- C9: in default JSON-Lines mode each input text yields one record with key
"text" first, then per head in discovery order the pair p_<head> (the possibly
calibrated probability) followed by <head> (1 iff that probability is at least
the head's threshold, default 0.5). In particular, for uncalibrated heads "a"
(threshold 0.5) and "b" (threshold 0.8, overridden) with raw session outputs
0.6 and 0.95 on input "x", the record is exactly
text "x", p_a 0.6, a 1, p_b 0.95, b 1, in that key order. -/
theorem jsonl_record_structure :
    (∀ (ov : List (String × ℝ)) (text : String)
       (heads : List (String × Option (ℝ × ℝ) × ℝ)),
      (jsonlRecord true ov text heads).map Prod.fst =
        "text" :: heads.flatMap (fun hcr => ["p_" ++ hcr.1, hcr.1])) ∧
    jsonlRecord true [("b", 8/10)] "x" [("a", none, 6/10), ("b", none, 95/100)] =
      [("text", JsonOut.str "x"), ("p_a", JsonOut.num (6/10)), ("a", JsonOut.int 1),
       ("p_b", JsonOut.num (95/100)), ("b", JsonOut.int 1)] := by
  constructor
  · intro ov text heads
    have key : ∀ hs : List (String × Option (ℝ × ℝ) × ℝ),
        (hs.flatMap (fun hcr =>
          [("p_" ++ hcr.1, JsonOut.num (applyCalibrationJsonl hcr.2.1 hcr.2.2)),
           (hcr.1, JsonOut.int
             (predictLabel hcr.2.1 (thresholdFor ov hcr.1) hcr.2.2))])).map Prod.fst
        = hs.flatMap (fun hcr => ["p_" ++ hcr.1, hcr.1]) := by
      intro hs
      induction hs with
      | nil => rfl
      | cons h t ih => simp [ih]
    simp [jsonlRecord, key]
  · have ta : thresholdFor [("b", (4:ℝ)/5)] "a" = 1/2 := by
      norm_num [thresholdFor, eq_false (by decide : ¬ ("b" = "a"))]
    have tb : thresholdFor [("b", (4:ℝ)/5)] "b" = 4/5 := by
      norm_num [thresholdFor]
    simp only [jsonlRecord, List.flatMap_cons, List.flatMap_nil, if_true,
      List.append_nil, List.nil_append, List.singleton_append]
    norm_num [applyCalibrationJsonl, predictLabel, ta, tb,
      (by decide : ("p_" ++ "a" : String) = "p_a"),
      (by decide : ("p_" ++ "b" : String) = "p_b")]

/-- Transitivity of the discovery comparison. -/
lemma childLe_trans (a b c : DirChild) (h1 : childLe a b) (h2 : childLe b c) :
    childLe a c := by
  simp only [childLe, decide_eq_true_eq] at *
  exact le_trans h1 h2

/-- Totality of the discovery comparison. -/
lemma childLe_total (a b : DirChild) : childLe a b || childLe b a := by
  simp only [childLe]
  rcases le_total (lowerKey a.name) (lowerKey b.name) with h | h <;> simp [h]

/-- A successful scan yields exactly the qualifying children's names, in scan
order. -/
lemma buildAll_ok_heads {l : List DirChild} {bs : List SessionBundleM}
    (h : buildAll l = .ok bs) :
    bundleHeads bs = (l.filter qualifies).map DirChild.name := by
  induction l generalizing bs with
  | nil =>
    simp only [buildAll] at h
    cases h
    rfl
  | cons c rest ih =>
    by_cases hq : qualifies c = true
    · simp only [buildAll, hq, if_true] at h
      cases hbs : buildSessionFromBundle c with
      | error e => rw [hbs] at h; cases h
      | ok sb =>
        rw [hbs] at h
        cases hba : buildAll rest with
        | error e => rw [hba] at h; cases h
        | ok bs' =>
          rw [hba] at h
          cases h
          have hh : sb.head = c.name := by
            unfold buildSessionFromBundle at hbs
            repeat' split at hbs
            all_goals first
              | exact Except.noConfusion hbs
              | (cases hbs; rfl)
          simp only [bundleHeads, List.map_cons, List.filter_cons, hq, if_true,
            hh]
          exact congrArg _ (ih hba)
    · have hq' : qualifies c = false := by
        cases hqv : qualifies c
        · rfl
        · exact absurd hqv hq
      simp only [buildAll, hq', Bool.false_eq_true, if_false] at h
      simp only [List.filter_cons, hq', Bool.false_eq_true, if_false]
      exact ih h

/-- Example qualifying child used by the discovery-order example: a directory
with both files, the config declaring both tensor names. -/
def exampleChild (n : String) : DirChild :=
  { name := n, isDir := true, hasModel := true,
    config := some (some (.obj [("inputTensorName", .str "text"),
                                ("outputTensorName", .str "probabilities")])),
    calib := none }

unseal List.merge List.mergeSort in
/-- C6: bundle discovery enumerates the qualifying immediate subdirectories of
the base directory in case-insensitive lexicographic order of their names
(the head order of every downstream output), and on subdirectories "risk",
"Address", "voda" it produces the heads Address, risk, voda for every one of
the six possible filesystem enumeration orders. -/
theorem discovery_order_case_insensitive :
    (∀ (children : List DirChild) (bs : List SessionBundleM),
      discoverBundles children = .ok bs →
      (bundleHeads bs).Pairwise (fun a b => lowerKey a ≤ lowerKey b) ∧
      (bundleHeads bs).Perm ((children.filter qualifies).map DirChild.name)) ∧
    (∀ l ∈ [["risk", "Address", "voda"], ["risk", "voda", "Address"],
        ["Address", "risk", "voda"], ["Address", "voda", "risk"],
        ["voda", "risk", "Address"], ["voda", "Address", "risk"]],
      Except.map bundleHeads (discoverBundles (l.map exampleChild)) =
        .ok ["Address", "risk", "voda"]) := by
  constructor
  · intro children bs h
    unfold discoverBundles at h
    cases hba : buildAll (children.mergeSort childLe) with
    | error e => rw [hba] at h; exact Except.noConfusion h
    | ok bs0 =>
      rw [hba] at h
      cases bs0 with
      | nil => exact Except.noConfusion h
      | cons b bs0' =>
        cases h
        constructor
        · rw [buildAll_ok_heads hba]
          apply List.pairwise_map.mpr
          have hsorted := @List.sorted_mergeSort DirChild childLe childLe_trans
            childLe_total children
          have hfiltered : ((children.mergeSort childLe).filter
              qualifies).Pairwise (fun a b => childLe a b = true) :=
            List.Pairwise.sublist (List.filter_sublist _) hsorted
          exact hfiltered.imp (fun hab => by
            simpa only [childLe, decide_eq_true_eq] using hab)
        · rw [buildAll_ok_heads hba]
          exact ((List.mergeSort_perm children childLe).filter qualifies).map
            DirChild.name
  · intro l hl
    fin_cases hl <;> rfl

unseal List.merge List.mergeSort in
/-- Witness for C6 at the concrete enumeration risk, Address, voda. -/
theorem discovery_order_case_insensitive_witness :
    (discoverBundles [exampleChild "risk", exampleChild "Address",
        exampleChild "voda"] =
      .ok [⟨"Address", none⟩, ⟨"risk", none⟩, ⟨"voda", none⟩]) ∧
    ((bundleHeads [⟨"Address", none⟩, ⟨"risk", none⟩, ⟨"voda", none⟩]).Pairwise
        (fun a b => lowerKey a ≤ lowerKey b) ∧
      (bundleHeads [⟨"Address", none⟩, ⟨"risk", none⟩, ⟨"voda", none⟩]).Perm
        (([exampleChild "risk", exampleChild "Address",
            exampleChild "voda"].filter qualifies).map DirChild.name)) ∧
    ((["risk", "Address", "voda"] ∈ [["risk", "Address", "voda"],
        ["risk", "voda", "Address"], ["Address", "risk", "voda"],
        ["Address", "voda", "risk"], ["voda", "risk", "Address"],
        ["voda", "Address", "risk"]]) ∧
      Except.map bundleHeads (discoverBundles
          (["risk", "Address", "voda"].map exampleChild)) =
        .ok ["Address", "risk", "voda"]) :=
  ⟨rfl, discovery_order_case_insensitive.1 _ _ rfl,
   by decide, discovery_order_case_insensitive.2 _ (by decide)⟩

/-- A qualifying child whose config object lacks one of the two tensor-name
keys makes the session build fatal. -/
lemma build_error_of_missing {c : DirChild} (hq : qualifies c = true)
    (hm : missingTensorKeys c = true) : buildSessionFromBundle c = .error () := by
  have hmodel : c.hasModel = true := by
    simp only [qualifies, Bool.and_eq_true] at hq
    exact hq.1.2
  rcases hc : c.config with _ | cfg
  · simp [missingTensorKeys, hc] at hm
  rcases cfg with _ | j
  · simp [missingTensorKeys, hc] at hm
  cases j with
  | obj fs =>
    rw [missingTensorKeys, hc] at hm
    unfold buildSessionFromBundle
    rw [hmodel, hc]
    rcases hin : lookupJ fs "inputTensorName" with _ | iv <;>
      rcases hout : lookupJ fs "outputTensorName" with _ | ov <;>
        simp_all [Option.isNone]
  | null => simp [missingTensorKeys, hc] at hm
  | bool b => simp [missingTensorKeys, hc] at hm
  | num q => simp [missingTensorKeys, hc] at hm
  | str s => simp [missingTensorKeys, hc] at hm
  | arr xs => simp [missingTensorKeys, hc] at hm

/-- C10: a discovered subdirectory that has both model.onnx and config.json
but whose config JSON lacks the inputTensorName or outputTensorName key
aborts the entire run fatally, whereas a subdirectory missing one of the two
files is silently skipped by the scan with no effect on the result: having
both files qualifies a directory for loading but does not guarantee the load
is non-fatal. -/
theorem config_missing_keys_fatal :
    (∀ (l1 l2 : List DirChild) (c : DirChild), qualifies c = false →
      buildAll (l1 ++ c :: l2) = buildAll (l1 ++ l2)) ∧
    (∀ (children : List DirChild) (c : DirChild), c ∈ children →
      qualifies c = true → missingTensorKeys c = true →
      discoverBundles children = .error ()) := by
  constructor
  · intro l1 l2 c hq
    induction l1 with
    | nil =>
      simp only [List.nil_append, buildAll, hq, Bool.false_eq_true, if_false]
    | cons d t ih =>
      simp only [List.cons_append, buildAll, List.append_eq, ih]
  · intro children c hmem hq hm
    have key : ∀ l : List DirChild, c ∈ l → buildAll l = .error () := by
      intro l
      induction l with
      | nil => intro h; cases h
      | cons d rest ih =>
        intro hdl
        rcases List.mem_cons.mp hdl with rfl | hdrest
        · simp only [buildAll, hq, if_true, build_error_of_missing hq hm]
        · by_cases hqd : qualifies d = true
          · simp only [buildAll, hqd, if_true]
            cases hbd : buildSessionFromBundle d with
            | error e => cases e; rfl
            | ok sb => rw [ih hdrest]
          · have hqd' : qualifies d = false := by
              cases hv : qualifies d
              · rfl
              · exact absurd hv hqd
            simp only [buildAll, hqd', Bool.false_eq_true, if_false]
            exact ih hdrest
    have hmem' : c ∈ children.mergeSort childLe :=
      ((List.mergeSort_perm children childLe).mem_iff).mpr hmem
    unfold discoverBundles
    rw [key _ hmem']

/-- Witness for C10: a directory without config.json is skipped with no
effect; a qualifying directory whose config lacks outputTensorName makes the
whole discovery fatal. -/
theorem config_missing_keys_fatal_witness :
    (qualifies (DirChild.mk "noconfig" true true none none) = false ∧
      buildAll ([exampleChild "good"] ++
          DirChild.mk "noconfig" true true none none :: []) =
        buildAll ([exampleChild "good"] ++ [])) ∧
    ((DirChild.mk "bad" true true
        (some (some (.obj [("inputTensorName", .str "text")]))) none ∈
      [exampleChild "good", DirChild.mk "bad" true true
        (some (some (.obj [("inputTensorName", .str "text")]))) none]) ∧
      qualifies (DirChild.mk "bad" true true
        (some (some (.obj [("inputTensorName", .str "text")]))) none) = true ∧
      missingTensorKeys (DirChild.mk "bad" true true
        (some (some (.obj [("inputTensorName", .str "text")]))) none) = true ∧
      discoverBundles [exampleChild "good", DirChild.mk "bad" true true
          (some (some (.obj [("inputTensorName", .str "text")]))) none] =
        .error ()) :=
  ⟨⟨rfl, config_missing_keys_fatal.1 [exampleChild "good"] []
      (DirChild.mk "noconfig" true true none none) rfl⟩,
   ⟨List.mem_cons_of_mem _ (List.mem_cons_self _ _), rfl, rfl,
    config_missing_keys_fatal.2 _ _
      (List.mem_cons_of_mem _ (List.mem_cons_self _ _)) rfl rfl⟩⟩
